import Mathlib

/-!
Shallow embedding of `src/PDF-Metadata-Updater.py` (PDF Metadata Updater).

The program is a sequential pipeline: resolve a two-key configuration
(Producer, Creator) interactively, then for each `.pdf` file of the input
folder build an output document by self-merging every page and attaching the
resolved metadata.

Modelling conventions:
- The config file's single `Metadata` section is a record of two optional
  string keys (`none` = key absent from the file; `some ""` = key present
  with an empty value).  `configparser.get(..., fallback="")` is `getD ""`.
- The operator's interactive answers are an input stream `ins : Nat → String`
  together with a cursor: each `input()` call consumes the next element.
- Python's `str.lower()` is modelled ASCII-only (`Char.toLower`), which
  agrees with Python on the one decision the program makes with it
  (comparison against the one-letter string "n").
- `config.write` snapshots the whole in-memory config; the list `writes`
  records the successful snapshots in order, and the file contents after the
  run are the last snapshot (or the original contents when nothing was
  written).
- Every write in `update_config` is performed as
  `with open(config_file, 'w') as config_file:`, whose `as` clause rebinds
  the local `config_file` from the path string to the (then closed) file
  object.  The first write of a call therefore succeeds, but a second write
  calls `open` on a closed file object and raises an uncaught `TypeError`
  after the in-memory `config.set` and before any file output.  The local
  variable's state is the `rebound` flag threaded through the blocks, and
  `crashed` records the uncaught exception; on a crash the remaining
  statements of the call do not run.
- A PDF is its list of pages; a page is its content stream.  PyPDF2's
  `merge_page` (external library code, not part of this repository) overlays
  the argument page onto the receiver; it is modelled as content-stream
  concatenation.
- `os.listdir` is a list of file names; opening a PDF is a fallible lookup
  `rd : String → Except String Pdf`; the output folder is a partial map
  `String → Option OutDoc` updated by each write (overwriting).
-/

namespace PDFMeta

/-- The `Metadata` section of `config.ini`: two optional keys. -/
structure Config where
  producer : Option String
  creator : Option String
deriving Repr, DecidableEq

/-- Embedding of `config.get('Metadata', 'Producer', fallback="")`. -/
def Config.getProducer (c : Config) : String := c.producer.getD ""

/-- Embedding of `config.get('Metadata', 'Creator', fallback="")`. -/
def Config.getCreator (c : Config) : String := c.creator.getD ""

/-- Embedding of `create_config`: a fresh config with an empty `Metadata`
section (both keys absent). -/
def create_config : Config := { producer := none, creator := none }

/-- Python's `str.lower()` restricted to ASCII, which is all the program
compares against (the literal "n"). -/
def pyLower (s : String) : String := ⟨s.data.map Char.toLower⟩

/-- Result of `update_config`: the in-memory config when the call ends (by
return or by the uncaught `TypeError`), the two resolved local values, the
list of successful whole-file write snapshots in order, the number of
operator inputs consumed, and whether the call crashed with the uncaught
`TypeError` raised by a second `open` on the rebound `config_file`. -/
structure UpdateResult where
  config : Config
  producer : String
  creator : String
  writes : List Config
  next : Nat
  crashed : Bool
deriving Repr, DecidableEq

/-- Result of one key's block inside `update_config`: the in-memory config,
the block's local value, its successful write snapshots, the next input
index, the state of the `config_file` local after the block (`rebound` =
it now holds the closed file object instead of the path), and whether the
block raised the uncaught `TypeError`. -/
structure BlockResult where
  config : Config
  value : String
  writes : List Config
  next : Nat
  rebound : Bool
  crashed : Bool
deriving Repr, DecidableEq

/-- File contents after the run: the last whole-file write, or the original
contents when no write happened. -/
def UpdateResult.fileAfter (r : UpdateResult) (orig : Config) : Config :=
  r.writes.foldl (fun _ w => w) orig

/-- Embedding of the Producer block of `update_config` (lines 93-110).
`rb` is the incoming state of the `config_file` local: when it is already
rebound to the closed file object, the block's `open` raises `TypeError`
after `config.set` has updated the in-memory config and before any file
output. -/
def resolveProducer (cfg : Config) (ins : Nat → String) (i : Nat) (rb : Bool) :
    BlockResult :=
  let producer := cfg.getProducer
  if producer ≠ "" then
    let confirm := pyLower (ins i)
    if confirm = "n" then
      let p := ins (i + 1)
      let cfg2 := { cfg with producer := some p }
      if rb then
        { config := cfg2, value := p, writes := [], next := i + 2,
          rebound := rb, crashed := true }
      else
        { config := cfg2, value := p, writes := [cfg2], next := i + 2,
          rebound := true, crashed := false }
    else
      { config := cfg, value := producer, writes := [], next := i + 1,
        rebound := rb, crashed := false }
  else
    let p := ins i
    let cfg2 := { cfg with producer := some p }
    if rb then
      { config := cfg2, value := p, writes := [], next := i + 1,
        rebound := rb, crashed := true }
    else
      { config := cfg2, value := p, writes := [cfg2], next := i + 1,
        rebound := true, crashed := false }

/-- Embedding of the Creator block of `update_config` (lines 112-129), with
the same `rb` convention as `resolveProducer`. -/
def resolveCreator (cfg : Config) (ins : Nat → String) (i : Nat) (rb : Bool) :
    BlockResult :=
  let creator := cfg.getCreator
  if creator ≠ "" then
    let confirm := pyLower (ins i)
    if confirm = "n" then
      let c := ins (i + 1)
      let cfg2 := { cfg with creator := some c }
      if rb then
        { config := cfg2, value := c, writes := [], next := i + 2,
          rebound := rb, crashed := true }
      else
        { config := cfg2, value := c, writes := [cfg2], next := i + 2,
          rebound := true, crashed := false }
    else
      { config := cfg, value := creator, writes := [], next := i + 1,
        rebound := rb, crashed := false }
  else
    let c := ins i
    let cfg2 := { cfg with creator := some c }
    if rb then
      { config := cfg2, value := c, writes := [], next := i + 1,
        rebound := rb, crashed := true }
    else
      { config := cfg2, value := c, writes := [cfg2], next := i + 1,
        rebound := true, crashed := false }

/-- Embedding of `update_config`: resolve Producer, then Creator, threading
the input cursor and the `config_file` local's state; the `config_file`
argument is a path when the call starts, so the first block runs with
`rb = false`.  A crash aborts the call (the Creator block does not run
after a Producer-block crash; the local `creator` was already read at line
91 of the source). -/
def update_config (cfg : Config) (ins : Nat → String) : UpdateResult :=
  let rp := resolveProducer cfg ins 0 false
  if rp.crashed then
    { config := rp.config, producer := rp.value, creator := cfg.getCreator
      writes := rp.writes, next := rp.next, crashed := true }
  else
    let rc := resolveCreator rp.config ins rp.next rp.rebound
    { config := rc.config
      producer := rp.value
      creator := rc.value
      writes := rp.writes ++ rc.writes
      next := rc.next
      crashed := rc.crashed }

/-- Embedding of the config phase of `__main__` (lines 181-185): when the
config file is absent, `create_config` first writes a file with an empty
`Metadata` section; then `update_config` runs on the file contents.  Returns
the file contents seen by `update_config` and the resolution result. -/
def mainConfig (existing : Option Config) (ins : Nat → String) :
    Config × UpdateResult :=
  match existing with
  | none => (create_config, update_config create_config ins)
  | some c => (c, update_config c ins)

/-- A PDF page, identified with its content stream. -/
structure Page where
  content : List Nat
deriving Repr, DecidableEq

/-- Modelled from the spec: PyPDF2's `page.merge_page(other)` is external
library code; it overlays `other` onto the receiver, appending the argument's
content stream to the receiver's. -/
def mergePage (a b : Page) : Page := { content := a.content ++ b.content }

/-- A PDF document, identified with its page list. -/
structure Pdf where
  pages : List Page
deriving Repr, DecidableEq

/-- The output document built by `PdfWriter`: pages plus the two metadata
fields set by `add_metadata`. -/
structure OutDoc where
  pages : List Page
  producer : String
  creator : String
deriving Repr, DecidableEq

/-- Embedding of `process_pdf` (lines 131-166): every page is merged with
the same-numbered page of a second read of the same (unchanged) file --
hence with itself -- and added to the writer; then /Producer and /Creator
are set from the config with fallback "". -/
def process_pdf (pdf : Pdf) (cfg : Config) : OutDoc :=
  { pages := pdf.pages.map (fun p => mergePage p p)
    producer := cfg.getProducer
    creator := cfg.getCreator }

/-- Python's `str.endswith(suffix)`: an exact, case-sensitive suffix test on
the character sequence. -/
def pyEndsWith (s suffix : String) : Bool := suffix.data.isSuffixOf s.data

/-- Embedding of the batch loop of `__main__` (lines 188-191): iterate the
input folder entries in order; process an entry exactly when its name ends
with ".pdf"; an open/parse failure propagates uncaught, aborting the run
with that error and processing no later entry.  Returns the ordered write
events `(name, document)` and the uncaught error, if any. -/
def runBatch : List String → (String → Except String Pdf) → Config →
    List (String × OutDoc) × Option String
  | [], _, _ => ([], none)
  | f :: rest, rd, cfg =>
    if pyEndsWith f ".pdf" then
      match rd f with
      | .error e => ([], some e)
      | .ok pdf =>
        let r := runBatch rest rd cfg
        ((f, process_pdf pdf cfg) :: r.1, r.2)
    else
      runBatch rest rd cfg

/-- Apply a list of write events to the output folder, in order; each write
stores the document under its name, overwriting any existing file. -/
def applyWrites (fs : String → Option OutDoc) :
    List (String × OutDoc) → String → Option OutDoc
  | [] => fs
  | (n, d) :: rest => applyWrites (fun m => if m = n then some d else fs m) rest

/-! ## Helper lemmas -/

/-- ASCII lowercasing sends a character to 'n' exactly for 'n' and 'N'. -/
lemma toLower_eq_n_iff (c : Char) : c.toLower = 'n' ↔ c = 'n' ∨ c = 'N' := by
  constructor
  · intro h
    have key : ∀ m : Fin 91, 65 ≤ m.1 → Char.ofNat (m.1 + 32) = 'n' → m.1 = 78 := by
      decide
    simp only [Char.toLower] at h
    split at h
    · rename_i hb
      have h90 : c.toNat < 91 := Nat.lt_succ_of_le hb.2
      have h78 : c.toNat = 78 := key ⟨c.toNat, h90⟩ hb.1 h
      have hc : Char.ofNat c.toNat = c := Char.ofNat_toNat c
      rw [h78] at hc
      right
      rw [← hc]
    · left
      exact h
  · rintro (rfl | rfl) <;> decide

/-- Python's `.lower()` comparison: a string lowercases to "n" exactly when
it is "n" or "N". -/
lemma pyLower_eq_n_iff (s : String) : pyLower s = "n" ↔ s = "n" ∨ s = "N" := by
  constructor
  · intro h
    obtain ⟨data⟩ := s
    have hd : data.map Char.toLower = ['n'] := congrArg String.data h
    cases data with
    | nil => simp at hd
    | cons c t =>
      rw [List.map_cons] at hd
      injection hd with h1 h2
      have ht : t = [] := List.map_eq_nil_iff.mp h2
      subst ht
      rcases (toLower_eq_n_iff c).mp h1 with rfl | rfl
      · left; rfl
      · right; rfl
  · rintro (rfl | rfl) <;> rfl

lemma resolveProducer_pos_accept (cfg : Config) (ins : Nat → String) (i : Nat)
    (rb : Bool) (h1 : cfg.getProducer ≠ "") (h2 : pyLower (ins i) ≠ "n") :
    resolveProducer cfg ins i rb =
      { config := cfg, value := cfg.getProducer, writes := [], next := i + 1,
        rebound := rb, crashed := false } := by
  simp [resolveProducer, h1, h2]

lemma resolveProducer_pos_decline (cfg : Config) (ins : Nat → String) (i : Nat)
    (rb : Bool) (h1 : cfg.getProducer ≠ "") (h2 : pyLower (ins i) = "n") :
    resolveProducer cfg ins i rb =
      { config := { cfg with producer := some (ins (i + 1)) }
        value := ins (i + 1)
        writes := if rb then [] else [{ cfg with producer := some (ins (i + 1)) }]
        next := i + 2, rebound := true, crashed := rb } := by
  cases rb <;> simp [resolveProducer, h1, h2]

lemma resolveProducer_empty (cfg : Config) (ins : Nat → String) (i : Nat)
    (rb : Bool) (h1 : cfg.getProducer = "") :
    resolveProducer cfg ins i rb =
      { config := { cfg with producer := some (ins i) }
        value := ins i
        writes := if rb then [] else [{ cfg with producer := some (ins i) }]
        next := i + 1, rebound := true, crashed := rb } := by
  cases rb <;> simp [resolveProducer, h1]

lemma resolveCreator_pos_accept (cfg : Config) (ins : Nat → String) (i : Nat)
    (rb : Bool) (h1 : cfg.getCreator ≠ "") (h2 : pyLower (ins i) ≠ "n") :
    resolveCreator cfg ins i rb =
      { config := cfg, value := cfg.getCreator, writes := [], next := i + 1,
        rebound := rb, crashed := false } := by
  simp [resolveCreator, h1, h2]

lemma resolveCreator_pos_decline (cfg : Config) (ins : Nat → String) (i : Nat)
    (rb : Bool) (h1 : cfg.getCreator ≠ "") (h2 : pyLower (ins i) = "n") :
    resolveCreator cfg ins i rb =
      { config := { cfg with creator := some (ins (i + 1)) }
        value := ins (i + 1)
        writes := if rb then [] else [{ cfg with creator := some (ins (i + 1)) }]
        next := i + 2, rebound := true, crashed := rb } := by
  cases rb <;> simp [resolveCreator, h1, h2]

lemma resolveCreator_empty (cfg : Config) (ins : Nat → String) (i : Nat)
    (rb : Bool) (h1 : cfg.getCreator = "") :
    resolveCreator cfg ins i rb =
      { config := { cfg with creator := some (ins i) }
        value := ins i
        writes := if rb then [] else [{ cfg with creator := some (ins i) }]
        next := i + 1, rebound := true, crashed := rb } := by
  cases rb <;> simp [resolveCreator, h1]

lemma resolveProducer_not_crashed (cfg : Config) (ins : Nat → String) (i : Nat) :
    (resolveProducer cfg ins i false).crashed = false := by
  by_cases h1 : cfg.getProducer = ""
  · simp [resolveProducer_empty cfg ins i false h1]
  · by_cases h2 : pyLower (ins i) = "n"
    · simp [resolveProducer_pos_decline cfg ins i false h1 h2]
    · simp [resolveProducer_pos_accept cfg ins i false h1 h2]

lemma update_config_producer_eq (cfg : Config) (ins : Nat → String) :
    (update_config cfg ins).producer = (resolveProducer cfg ins 0 false).value := by
  by_cases hcr : (resolveProducer cfg ins 0 false).crashed <;>
    simp [update_config, hcr]

lemma update_config_creator_eq (cfg : Config) (ins : Nat → String) :
    (update_config cfg ins).creator =
      (resolveCreator (resolveProducer cfg ins 0 false).config ins
        (resolveProducer cfg ins 0 false).next
        (resolveProducer cfg ins 0 false).rebound).value := by
  simp [update_config, resolveProducer_not_crashed]

lemma resolveProducer_val_ne (cfg : Config) (ins : Nat → String) (i : Nat)
    (rb : Bool) (h : ∀ j, ins j ≠ "") : (resolveProducer cfg ins i rb).value ≠ "" := by
  by_cases h1 : cfg.getProducer = ""
  · rw [resolveProducer_empty cfg ins i rb h1]
    exact h i
  · by_cases h2 : pyLower (ins i) = "n"
    · rw [resolveProducer_pos_decline cfg ins i rb h1 h2]
      exact h (i + 1)
    · rw [resolveProducer_pos_accept cfg ins i rb h1 h2]
      exact h1

lemma resolveCreator_val_ne (cfg : Config) (ins : Nat → String) (i : Nat)
    (rb : Bool) (h : ∀ j, ins j ≠ "") : (resolveCreator cfg ins i rb).value ≠ "" := by
  by_cases h1 : cfg.getCreator = ""
  · rw [resolveCreator_empty cfg ins i rb h1]
    exact h i
  · by_cases h2 : pyLower (ins i) = "n"
    · rw [resolveCreator_pos_decline cfg ins i rb h1 h2]
      exact h (i + 1)
    · rw [resolveCreator_pos_accept cfg ins i rb h1 h2]
      exact h1

lemma getCreator_update_producer (cfg : Config) (p : Option String) :
    ({ cfg with producer := p } : Config).getCreator = cfg.getCreator := rfl

lemma getProducer_update_creator (cfg : Config) (c : Option String) :
    ({ cfg with creator := c } : Config).getProducer = cfg.getProducer := rfl

lemma resolveCreator_producer_frame (cfg : Config) (ins : Nat → String) (i : Nat)
    (rb : Bool) : (resolveCreator cfg ins i rb).config.producer = cfg.producer := by
  unfold resolveCreator
  dsimp only
  split_ifs <;> rfl

lemma resolveProducer_creator_frame (cfg : Config) (ins : Nat → String) (i : Nat)
    (rb : Bool) : (resolveProducer cfg ins i rb).config.creator = cfg.creator := by
  unfold resolveProducer
  dsimp only
  split_ifs <;> rfl

lemma runBatch_spec (entries : List String) (rd : String → Except String Pdf)
    (cfg : Config)
    (h : ∀ f ∈ entries, pyEndsWith f ".pdf" = true → (rd f).isOk = true) :
    (runBatch entries rd cfg).1.map Prod.fst
        = entries.filter (fun f => pyEndsWith f ".pdf") ∧
      (runBatch entries rd cfg).2 = none := by
  induction entries with
  | nil => simp [runBatch]
  | cons f rest ih =>
    have ih2 := ih (fun g hg hgp => h g (List.mem_cons_of_mem f hg) hgp)
    by_cases hf : pyEndsWith f ".pdf"
    · have hok := h f (List.mem_cons_self f rest) hf
      cases hrd : rd f with
      | error e => rw [hrd] at hok; simp [Except.isOk, Except.toBool] at hok
      | ok pdf => simp [runBatch, hf, hrd, ih2.1, ih2.2]
    · simp [runBatch, hf, ih2.1, ih2.2]

lemma runBatch_fst_sub (entries : List String) (rd : String → Except String Pdf)
    (cfg : Config) : ∀ x ∈ (runBatch entries rd cfg).1, x.1 ∈ entries := by
  induction entries with
  | nil => simp [runBatch]
  | cons f rest ih =>
    intro x hx
    by_cases hf : pyEndsWith f ".pdf"
    · cases hrd : rd f with
      | error e => simp [runBatch, hf, hrd] at hx
      | ok pdf =>
        simp only [runBatch, hf, hrd, if_true, List.mem_cons] at hx
        rcases hx with rfl | hx
        · exact List.mem_cons_self _ _
        · exact List.mem_cons_of_mem _ (ih x hx)
    · simp only [runBatch, hf, if_false] at hx
      exact List.mem_cons_of_mem _ (ih x hx)

lemma applyWrites_not_mem (evs : List (String × OutDoc)) :
    ∀ (fs : String → Option OutDoc) (n : String),
      n ∉ evs.map Prod.fst → applyWrites fs evs n = fs n := by
  induction evs with
  | nil => intro fs n _; rfl
  | cons ev rest ih =>
    intro fs n h
    obtain ⟨m, d⟩ := ev
    simp only [List.map_cons, List.mem_cons] at h
    push_neg at h
    simp only [applyWrites]
    rw [ih _ n h.2]
    simp [h.1]

lemma applyWrites_head (n : String) (d : OutDoc) (rest : List (String × OutDoc))
    (fs : String → Option OutDoc) (h : n ∉ rest.map Prod.fst) :
    applyWrites fs ((n, d) :: rest) n = some d := by
  simp only [applyWrites]
  rw [applyWrites_not_mem rest _ n h]
  simp

lemma runBatch_lookup : ∀ (entries : List String)
    (rd : String → Except String Pdf) (cfg : Config) (f : String) (pdf : Pdf),
    entries.Nodup → f ∈ entries → pyEndsWith f ".pdf" = true →
    rd f = .ok pdf →
    (∀ g ∈ entries, pyEndsWith g ".pdf" = true → (rd g).isOk = true) →
    ∀ fs, applyWrites fs (runBatch entries rd cfg).1 f
      = some (process_pdf pdf cfg) := by
  intro entries
  induction entries with
  | nil => intro rd cfg f pdf _ hf; cases hf
  | cons g rest ih =>
    intro rd cfg f pdf hnd hf hpdf hrd hall fs
    have hnd1 := (List.nodup_cons.mp hnd).1
    have hnd2 := (List.nodup_cons.mp hnd).2
    have hall2 : ∀ g2 ∈ rest, pyEndsWith g2 ".pdf" = true → (rd g2).isOk = true :=
      fun g2 hg hp2 => hall g2 (List.mem_cons_of_mem g hg) hp2
    rcases List.mem_cons.mp hf with rfl | hfr
    · simp only [runBatch, hpdf, hrd, if_true]
      have hnotin : f ∉ (runBatch rest rd cfg).1.map Prod.fst := by
        intro hmem
        obtain ⟨x, hx, hx1⟩ := List.mem_map.mp hmem
        exact hnd1 (hx1 ▸ runBatch_fst_sub rest rd cfg x hx)
      exact applyWrites_head f _ _ fs hnotin
    · by_cases hg : pyEndsWith g ".pdf"
      · have hok := hall g (List.mem_cons_self g rest) hg
        cases hrdg : rd g with
        | error e => rw [hrdg] at hok; simp [Except.isOk, Except.toBool] at hok
        | ok q =>
          simp only [runBatch, hg, hrdg, if_true]
          simp only [applyWrites]
          exact ih rd cfg f pdf hnd2 hfr hpdf hrd hall2 _
      · simp only [runBatch, hg, if_false]
        exact ih rd cfg f pdf hnd2 hfr hpdf hrd hall2 fs

/-! ## Claims -/

/-- C1 counterexample: a completing (crash-free) run with an empty resolved
value.  With Producer = "X" and Creator = "C", the operator declines the
Producer prompt and types the empty string, then accepts Creator: only one
config write happens, `update_config` returns normally, and the resolved
Producer is "" — so completion does not guarantee a non-empty pair for
every sequence of operator inputs. -/
theorem claim_C1_counterexample :
    ¬ ((update_config { producer := some "X", creator := some "C" }
          (fun i => if i = 0 then "n" else if i = 1 then "" else "y")).crashed
            = false →
        (update_config { producer := some "X", creator := some "C" }
          (fun i => if i = 0 then "n" else if i = 1 then "" else "y")).producer
            ≠ "" ∧
        (update_config { producer := some "X", creator := some "C" }
          (fun i => if i = 0 then "n" else if i = 1 then "" else "y")).creator
            ≠ "") := by
  decide

/-- C1 (amended): when `update_config` completes (without the config-write
`TypeError`), the resolved Producer and Creator values are both non-empty,
provided every operator input is a non-empty string.  (The proof does not
even need the completion hypothesis: the resolved locals are assigned
before any crash; the hypothesis states the claim's "after update_config
completes" side condition.) -/
theorem claim_C1 (cfg : Config) (ins : Nat → String) (h : ∀ i, ins i ≠ "")
    (_hok : (update_config cfg ins).crashed = false) :
    (update_config cfg ins).producer ≠ "" ∧
      (update_config cfg ins).creator ≠ "" := by
  constructor
  · rw [update_config_producer_eq]
    exact resolveProducer_val_ne cfg ins 0 false h
  · rw [update_config_creator_eq]
    exact resolveCreator_val_ne _ ins _ _ h

/-- C1 witness: a config with both values present and an operator who
always answers "x" (accepting both prompts): no write, no crash, non-empty
resolved pair. -/
theorem claim_C1_witness :
    (update_config { producer := some "X", creator := some "C" }
        (fun _ => "x")).producer ≠ "" ∧
      (update_config { producer := some "X", creator := some "C" }
        (fun _ => "x")).creator ≠ "" :=
  claim_C1 { producer := some "X", creator := some "C" } (fun _ => "x")
    (fun _ => by show ("x" : String) ≠ ""; decide) (by decide)

/-- C2 counterexample: Producer = "X", Creator = "C"; the operator declines
both prompts, replacing Producer with "Y" and Creator with "Z".  The
Producer write rebinds `config_file`, so the Creator write raises the
uncaught `TypeError`: the run crashes and the stored Creator remains "C" —
the entered replacement "Z" is not persisted, refuting the claim. -/
theorem claim_C2_counterexample :
    (update_config { producer := some "X", creator := some "C" }
        (fun i => if i = 0 then "n" else if i = 1 then "Y"
          else if i = 2 then "n" else "Z")).crashed = true ∧
    ¬ (((update_config { producer := some "X", creator := some "C" }
        (fun i => if i = 0 then "n" else if i = 1 then "Y"
          else if i = 2 then "n" else "Z")).fileAfter
        { producer := some "X", creator := some "C" }).creator = some "Z") := by
  decide

/-- C2 (amended): for each config key holding a non-empty value, the stored
(file) value after `update_config` is unchanged unless the operator
declines at that key's confirmation prompt (answer lowercasing to "n").  A
declined Producer's replacement is always persisted (its write is the
call's first).  A declined Creator's replacement is persisted only when the
Producer block did not itself write; otherwise the second config-file
`open` raises the uncaught `TypeError` and the stored Creator remains
unchanged.  No other path alters a stored value.  The Creator confirmation
is read at input index 1, except after a Producer decline (which consumed
two inputs), where it is read at index 2. -/
theorem claim_C2 (cfg : Config) (ins : Nat → String) :
    (cfg.getProducer ≠ "" →
      ((update_config cfg ins).fileAfter cfg).producer
        = (if pyLower (ins 0) = "n" then some (ins 1) else cfg.producer)) ∧
    (cfg.getCreator ≠ "" →
      ((update_config cfg ins).fileAfter cfg).creator
        = (let j := if cfg.getProducer = "" then 1
              else if pyLower (ins 0) = "n" then 2 else 1
           if pyLower (ins j) = "n" ∧
               ¬ (cfg.getProducer = "" ∨ pyLower (ins 0) = "n") then
             some (ins (j + 1))
           else cfg.creator)) := by
  by_cases hp : cfg.getProducer = ""
  · by_cases hc : cfg.getCreator = ""
    · have hc2 : ({ cfg with producer := some (ins 0) } : Config).getCreator = "" := hc
      simp [update_config, UpdateResult.fileAfter,
        resolveProducer_empty cfg ins 0 false hp,
        resolveCreator_empty _ ins 1 true hc2, hp, hc]
    · have hc2 : ({ cfg with producer := some (ins 0) } : Config).getCreator ≠ "" := hc
      by_cases e1 : pyLower (ins 1) = "n"
      · simp [update_config, UpdateResult.fileAfter,
          resolveProducer_empty cfg ins 0 false hp,
          resolveCreator_pos_decline _ ins 1 true hc2 e1, hp, e1]
      · simp [update_config, UpdateResult.fileAfter,
          resolveProducer_empty cfg ins 0 false hp,
          resolveCreator_pos_accept _ ins 1 true hc2 e1, hp, e1]
  · by_cases d0 : pyLower (ins 0) = "n"
    · by_cases hc : cfg.getCreator = ""
      · have hc2 : ({ cfg with producer := some (ins 1) } : Config).getCreator = "" := hc
        simp [update_config, UpdateResult.fileAfter,
          resolveProducer_pos_decline cfg ins 0 false hp d0,
          resolveCreator_empty _ ins 2 true hc2, hp, d0, hc]
      · have hc2 : ({ cfg with producer := some (ins 1) } : Config).getCreator ≠ "" := hc
        by_cases e2 : pyLower (ins 2) = "n"
        · simp [update_config, UpdateResult.fileAfter,
            resolveProducer_pos_decline cfg ins 0 false hp d0,
            resolveCreator_pos_decline _ ins 2 true hc2 e2, hp, d0, e2]
        · simp [update_config, UpdateResult.fileAfter,
            resolveProducer_pos_decline cfg ins 0 false hp d0,
            resolveCreator_pos_accept _ ins 2 true hc2 e2, hp, d0, e2,
            Config.getCreator]
    · by_cases hc : cfg.getCreator = ""
      · simp [update_config, UpdateResult.fileAfter,
          resolveProducer_pos_accept cfg ins 0 false hp d0,
          resolveCreator_empty cfg ins 1 false hc, hp, d0, hc]
      · by_cases e1 : pyLower (ins 1) = "n"
        · simp [update_config, UpdateResult.fileAfter,
            resolveProducer_pos_accept cfg ins 0 false hp d0,
            resolveCreator_pos_decline cfg ins 1 false hc e1, hp, d0, e1]
        · simp [update_config, UpdateResult.fileAfter,
            resolveProducer_pos_accept cfg ins 0 false hp d0,
            resolveCreator_pos_accept cfg ins 1 false hc e1, hp, d0, e1,
            Config.getCreator]

/-- C2 witness: Producer "X" replaced by "Y" after a decline (the first and
only write, which succeeds); Creator "C" kept after an accepting answer
"ok". -/
theorem claim_C2_witness :
    ((update_config { producer := some "X", creator := some "C" }
        (fun i => if i = 0 then "n" else if i = 1 then "Y" else "ok")).fileAfter
        { producer := some "X", creator := some "C" }).producer = some "Y" ∧
    ((update_config { producer := some "X", creator := some "C" }
        (fun i => if i = 0 then "n" else if i = 1 then "Y" else "ok")).fileAfter
        { producer := some "X", creator := some "C" }).creator = some "C" :=
  ⟨((claim_C2 { producer := some "X", creator := some "C" }
      (fun i => if i = 0 then "n" else if i = 1 then "Y" else "ok")).1
      (by decide)).trans (by decide),
   ((claim_C2 { producer := some "X", creator := some "C" }
      (fun i => if i = 0 then "n" else if i = 1 then "Y" else "ok")).2
      (by decide)).trans (by decide)⟩

/-- C5 counterexample: with Producer = Creator = "X", the operator declines
the Producer prompt and types "X" again, then accepts Creator; the run
completes, changes nothing (the final config equals the initial one), yet
the config file is rewritten — so it is not true that paths changing
nothing do not write. -/
theorem claim_C5_counterexample :
    (update_config { producer := some "X", creator := some "X" }
        (fun i => if i = 0 then "n" else "X")).config =
      { producer := some "X", creator := some "X" } ∧
    (update_config { producer := some "X", creator := some "X" }
        (fun i => if i = 0 then "n" else "X")).writes ≠ [] := by
  decide

/-- C5 (amended): every path of `update_config` that assigns a value
(prompted fill-in of an empty key, or operator-declined reuse) attempts an
immediate whole-file rewrite, and no write happens exactly when both keys
were non-empty and both reuse prompts were accepted.  But only the first
write of a call succeeds: when both blocks assign, the second `open` raises
the uncaught `TypeError` (exactly when the Producer block wrote and the
Creator block also assigns), and the Creator change is left unpersisted.
On completing runs the file ends equal to the in-memory config; on crashing
runs the stored Creator is unchanged.  A declined-reuse path also writes
when the entered replacement equals the existing value, so a write can
occur on a path that changes nothing. -/
theorem claim_C5 (cfg : Config) (ins : Nat → String) :
    ((update_config cfg ins).crashed = false →
      (update_config cfg ins).fileAfter cfg = (update_config cfg ins).config) ∧
    ((update_config cfg ins).writes = [] ↔
      cfg.getProducer ≠ "" ∧ pyLower (ins 0) ≠ "n" ∧
        cfg.getCreator ≠ "" ∧ pyLower (ins 1) ≠ "n") ∧
    ((update_config cfg ins).crashed = true ↔
      (cfg.getProducer = "" ∨ pyLower (ins 0) = "n") ∧
        (cfg.getCreator = "" ∨
          pyLower (ins (if cfg.getProducer = "" then 1 else 2)) = "n")) ∧
    ((update_config cfg ins).crashed = true →
      ((update_config cfg ins).fileAfter cfg).creator = cfg.creator) := by
  by_cases hp : cfg.getProducer = ""
  · by_cases hcr : cfg.getCreator = ""
    · have hc2 : ({ cfg with producer := some (ins 0) } : Config).getCreator = "" := hcr
      simp [update_config, UpdateResult.fileAfter,
        resolveProducer_empty cfg ins 0 false hp,
        resolveCreator_empty _ ins 1 true hc2, hp, hcr]
    · have hc2 : ({ cfg with producer := some (ins 0) } : Config).getCreator ≠ "" := hcr
      by_cases e1 : pyLower (ins 1) = "n"
      · simp [update_config, UpdateResult.fileAfter,
          resolveProducer_empty cfg ins 0 false hp,
          resolveCreator_pos_decline _ ins 1 true hc2 e1, hp, hcr, e1]
      · simp [update_config, UpdateResult.fileAfter,
          resolveProducer_empty cfg ins 0 false hp,
          resolveCreator_pos_accept _ ins 1 true hc2 e1, hp, hcr, e1]
  · by_cases d0 : pyLower (ins 0) = "n"
    · by_cases hcr : cfg.getCreator = ""
      · have hc2 : ({ cfg with producer := some (ins 1) } : Config).getCreator = "" := hcr
        simp [update_config, UpdateResult.fileAfter,
          resolveProducer_pos_decline cfg ins 0 false hp d0,
          resolveCreator_empty _ ins 2 true hc2, hp, d0, hcr]
      · have hc2 : ({ cfg with producer := some (ins 1) } : Config).getCreator ≠ "" := hcr
        by_cases e2 : pyLower (ins 2) = "n"
        · simp [update_config, UpdateResult.fileAfter,
            resolveProducer_pos_decline cfg ins 0 false hp d0,
            resolveCreator_pos_decline _ ins 2 true hc2 e2, hp, d0, hcr, e2]
        · simp [update_config, UpdateResult.fileAfter,
            resolveProducer_pos_decline cfg ins 0 false hp d0,
            resolveCreator_pos_accept _ ins 2 true hc2 e2, hp, d0, hcr, e2]
    · by_cases hcr : cfg.getCreator = ""
      · simp [update_config, UpdateResult.fileAfter,
          resolveProducer_pos_accept cfg ins 0 false hp d0,
          resolveCreator_empty cfg ins 1 false hcr, hp, d0, hcr]
      · by_cases e1 : pyLower (ins 1) = "n"
        · simp [update_config, UpdateResult.fileAfter,
            resolveProducer_pos_accept cfg ins 0 false hp d0,
            resolveCreator_pos_decline cfg ins 1 false hcr e1, hp, d0, hcr, e1]
        · simp [update_config, UpdateResult.fileAfter,
            resolveProducer_pos_accept cfg ins 0 false hp d0,
            resolveCreator_pos_accept cfg ins 1 false hcr e1, hp, d0, hcr, e1]

/-- C5 witness: an all-accept run completes with the file equal to the
in-memory config; a fresh (both keys empty) run crashes at the second
write, leaving the Creator key absent from the file. -/
theorem claim_C5_witness :
    (update_config { producer := some "X", creator := some "C" }
        (fun _ => "ok")).fileAfter { producer := some "X", creator := some "C" }
      = (update_config { producer := some "X", creator := some "C" }
        (fun _ => "ok")).config ∧
    ((update_config { producer := none, creator := none }
        (fun _ => "v")).fileAfter { producer := none, creator := none }).creator
      = none :=
  ⟨(claim_C5 { producer := some "X", creator := some "C" } (fun _ => "ok")).1
      (by decide),
   (claim_C5 { producer := none, creator := none } (fun _ => "v")).2.2.2
      (by decide)⟩

/-- C7 (code bug): with no config file, `create_config` does write a file
with an empty `Metadata` section, but both keys are then empty, so both
blocks of `update_config` write — and the second write raises the uncaught
`TypeError` (`open` on the `config_file` local rebound to the closed file
object by the Producer write).  Evaluated at the failing input (fresh
config, operator enters "P" then "C"): the run crashes and the file after
the run holds only the Producer key, never the Creator key — contradicting
the claim's "the file contains both keys". -/
theorem claim_C7 :
    (mainConfig none (fun i => if i = 0 then "P" else "C")).1
      = { producer := none, creator := none } ∧
    (mainConfig none (fun i => if i = 0 then "P" else "C")).2.crashed = true ∧
    ((mainConfig none (fun i => if i = 0 then "P" else "C")).2.fileAfter
        (mainConfig none (fun i => if i = 0 then "P" else "C")).1).producer
      = some "P" ∧
    ((mainConfig none (fun i => if i = 0 then "P" else "C")).2.fileAfter
        (mainConfig none (fun i => if i = 0 then "P" else "C")).1).creator
      = none := by
  decide

/-- C10: at a reuse-confirmation prompt, the answer counts as declining
exactly when it lowercases to "n" — that is, exactly for the inputs "n" and
"N"; every other answer (for example "no", "", or arbitrary text) is
treated as acceptance and leaves the existing value unchanged. -/
theorem claim_C10 (cfg : Config) (ins : Nat → String)
    (hp : cfg.getProducer ≠ "") (hc : cfg.getCreator ≠ "") :
    (∀ s, pyLower s = "n" ↔ s = "n" ∨ s = "N") ∧
    (pyLower (ins 0) ≠ "n" →
      (update_config cfg ins).config.producer = cfg.producer ∧
        (update_config cfg ins).producer = cfg.getProducer) ∧
    (pyLower (ins 0) ≠ "n" → pyLower (ins 1) ≠ "n" →
      (update_config cfg ins).config = cfg ∧
        (update_config cfg ins).creator = cfg.getCreator) := by
  refine ⟨pyLower_eq_n_iff, ?_, ?_⟩
  · intro h0
    constructor
    · simp [update_config, resolveProducer_pos_accept cfg ins 0 false hp h0,
        resolveCreator_producer_frame]
    · simp [update_config, resolveProducer_pos_accept cfg ins 0 false hp h0]
  · intro h0 h1
    constructor
    · simp [update_config, resolveProducer_pos_accept cfg ins 0 false hp h0,
        resolveCreator_pos_accept cfg ins 1 false hc h1]
    · simp [update_config, resolveProducer_pos_accept cfg ins 0 false hp h0,
        resolveCreator_pos_accept cfg ins 1 false hc h1]

/-- C10 witness: "N" lowercases to "n" (a decline); the answer "no" is an
acceptance that keeps Producer = "X". -/
theorem claim_C10_witness :
    (pyLower "N" = "n" ↔ ("N" : String) = "n" ∨ ("N" : String) = "N") ∧
    (update_config { producer := some "X", creator := some "C" }
        (fun _ => "no")).config.producer = some "X" :=
  ⟨(claim_C10 { producer := some "X", creator := some "C" } (fun _ => "no")
      (by decide) (by decide)).1 "N",
   ((claim_C10 { producer := some "X", creator := some "C" } (fun _ => "no")
      (by decide) (by decide)).2.1 (by decide)).1⟩

/-- C3: provided every `.pdf` entry opens successfully, the batch loop
processes an entry exactly when its name ends with the exact, case-sensitive
suffix ".pdf": the names written to the output folder are precisely the
filtered entries, in order, and no other entry produces any output. -/
theorem claim_C3 (entries : List String) (rd : String → Except String Pdf)
    (cfg : Config)
    (h : ∀ f ∈ entries, pyEndsWith f ".pdf" = true → (rd f).isOk = true) :
    (runBatch entries rd cfg).1.map Prod.fst
        = entries.filter (fun f => pyEndsWith f ".pdf") ∧
      (runBatch entries rd cfg).2 = none :=
  runBatch_spec entries rd cfg h

/-- C3 witness: a folder with `a.pdf` and `notes.txt` produces output for
`a.pdf` only. -/
theorem claim_C3_witness :
    (runBatch ["a.pdf", "notes.txt"] (fun _ => .ok { pages := [] })
          create_config).1.map Prod.fst
        = (["a.pdf", "notes.txt"].filter (fun f => pyEndsWith f ".pdf")) ∧
      (runBatch ["a.pdf", "notes.txt"] (fun _ => .ok { pages := [] })
          create_config).2 = none :=
  claim_C3 ["a.pdf", "notes.txt"] (fun _ => .ok { pages := [] }) create_config
    (by decide)

/-- C4: for every processed PDF, the batch writes to the output folder,
under the same basename, a document with the same number of pages whose
Producer and Creator metadata equal the resolved config values (fallback ""
when a key is absent), overwriting whatever the output folder previously
held under that name. -/
theorem claim_C4 (entries : List String) (rd : String → Except String Pdf)
    (cfg : Config) (fs : String → Option OutDoc) (f : String) (pdf : Pdf)
    (hnd : entries.Nodup) (hf : f ∈ entries) (hpdf : pyEndsWith f ".pdf" = true)
    (hrd : rd f = .ok pdf)
    (hall : ∀ g ∈ entries, pyEndsWith g ".pdf" = true → (rd g).isOk = true) :
    applyWrites fs (runBatch entries rd cfg).1 f = some (process_pdf pdf cfg) ∧
      (process_pdf pdf cfg).pages.length = pdf.pages.length ∧
      (process_pdf pdf cfg).producer = cfg.getProducer ∧
      (process_pdf pdf cfg).creator = cfg.getCreator := by
  refine ⟨runBatch_lookup entries rd cfg f pdf hnd hf hpdf hrd hall fs, ?_, rfl, rfl⟩
  simp [process_pdf]

/-- C4 witness: a two-page `a.pdf` is written to the output folder
(overwriting an existing entry) with two pages and the configured
metadata. -/
theorem claim_C4_witness :
    applyWrites
        (fun _ => some { pages := [], producer := "old", creator := "old" })
        (runBatch ["a.pdf", "notes.txt"]
          (fun _ => .ok { pages := [{ content := [1] }, { content := [2] }] })
          { producer := some "P", creator := some "C" }).1 "a.pdf"
        = some (process_pdf { pages := [{ content := [1] }, { content := [2] }] }
            { producer := some "P", creator := some "C" }) ∧
      (process_pdf { pages := [{ content := [1] }, { content := [2] }] }
          { producer := some "P", creator := some "C" }).pages.length
        = ({ pages := [{ content := [1] }, { content := [2] }] } : Pdf).pages.length ∧
      (process_pdf { pages := [{ content := [1] }, { content := [2] }] }
          { producer := some "P", creator := some "C" }).producer
        = ({ producer := some "P", creator := some "C" } : Config).getProducer ∧
      (process_pdf { pages := [{ content := [1] }, { content := [2] }] }
          { producer := some "P", creator := some "C" }).creator
        = ({ producer := some "P", creator := some "C" } : Config).getCreator :=
  claim_C4 ["a.pdf", "notes.txt"]
    (fun _ => .ok { pages := [{ content := [1] }, { content := [2] }] })
    { producer := some "P", creator := some "C" }
    (fun _ => some { pages := [], producer := "old", creator := "old" })
    "a.pdf" { pages := [{ content := [1] }, { content := [2] }] }
    (by decide) (by decide) (by decide) rfl (by decide)

/-- C6: if opening or parsing one PDF fails, the error propagates uncaught:
the run ends with that error, the output events are exactly those of the
entries before the failing one, and no later entry is processed. -/
theorem claim_C6 (pre post : List String) (f e : String)
    (rd : String → Except String Pdf) (cfg : Config)
    (hok : (runBatch pre rd cfg).2 = none)
    (hpdf : pyEndsWith f ".pdf" = true) (hrd : rd f = .error e) :
    (runBatch (pre ++ f :: post) rd cfg).1 = (runBatch pre rd cfg).1 ∧
      (runBatch (pre ++ f :: post) rd cfg).2 = some e := by
  revert hok
  induction pre with
  | nil =>
    intro _
    simp [runBatch, hpdf, hrd]
  | cons g rest ih =>
    intro hok
    by_cases hg : pyEndsWith g ".pdf"
    · cases hrdg : rd g with
      | error e2 => simp [runBatch, hg, hrdg] at hok
      | ok q =>
        have hok2 : (runBatch rest rd cfg).2 = none := by
          simpa [runBatch, hg, hrdg] using hok
        have ih2 := ih hok2
        constructor <;> simp [List.cons_append, runBatch, hg, hrdg, ih2.1, ih2.2]
    · have hok2 : (runBatch rest rd cfg).2 = none := by
        simpa [runBatch, hg] using hok
      have ih2 := ih hok2
      constructor <;> simp [List.cons_append, runBatch, hg, ih2.1, ih2.2]

/-- C6 witness: `bad.pdf` fails after `a.pdf` succeeded; the run aborts with
that error, keeping only `a.pdf`'s output, and `c.pdf` is never processed. -/
theorem claim_C6_witness :
    (runBatch (["a.pdf"] ++ "bad.pdf" :: ["c.pdf"])
          (fun g => if g = "bad.pdf" then .error "boom"
            else .ok { pages := [] }) create_config).1
        = (runBatch ["a.pdf"]
            (fun g => if g = "bad.pdf" then .error "boom"
              else .ok { pages := [] }) create_config).1 ∧
      (runBatch (["a.pdf"] ++ "bad.pdf" :: ["c.pdf"])
          (fun g => if g = "bad.pdf" then .error "boom"
            else .ok { pages := [] }) create_config).2 = some "boom" :=
  claim_C6 ["a.pdf"] ["c.pdf"] "bad.pdf" "boom"
    (fun g => if g = "bad.pdf" then .error "boom" else .ok { pages := [] })
    create_config (by decide) (by decide) rfl

/-- C8: the metadata written by `process_pdf` is a deterministic function of
the resolved config values — two configs resolving to the same
Producer/Creator values give identical output documents on the same input,
so two runs over the same inputs produce identical metadata fields. -/
theorem claim_C8 (pdf : Pdf) (c1 c2 : Config)
    (h1 : c1.getProducer = c2.getProducer)
    (h2 : c1.getCreator = c2.getCreator) :
    process_pdf pdf c1 = process_pdf pdf c2 := by
  simp [process_pdf, h1, h2]

/-- C8 witness: a config with Creator absent and one with Creator present
but empty resolve identically, and produce the same output document. -/
theorem claim_C8_witness :
    process_pdf { pages := [{ content := [1] }] }
        { producer := some "P", creator := none }
      = process_pdf { pages := [{ content := [1] }] }
        { producer := some "P", creator := some "" } :=
  claim_C8 { pages := [{ content := [1] }] }
    { producer := some "P", creator := none }
    { producer := some "P", creator := some "" } rfl rfl

/-- C9 counterexample: for a PDF whose single page has an empty content
stream, self-merging is the identity, so the page placed in the output
document is a verbatim copy of the source page — the claim's universal
"not a verbatim copy" fails. -/
theorem claim_C9_counterexample :
    ¬ ((process_pdf { pages := [{ content := [] }] } create_config).pages
        ≠ ({ pages := [{ content := [] }] } : Pdf).pages) := by
  decide

/-- C9 (amended): `process_pdf` merges (overlays) each page with the
same-numbered page obtained from a second read of the same file — i.e. with
itself — before adding it to the writer; the placed page therefore differs
from a verbatim copy of the source page whenever the page's content stream
is non-empty (but equals it for an empty content stream). -/
theorem claim_C9 (pdf : Pdf) (cfg : Config) :
    (process_pdf pdf cfg).pages = pdf.pages.map (fun p => mergePage p p) ∧
      ∀ p ∈ pdf.pages, p.content ≠ [] → mergePage p p ≠ p := by
  refine ⟨rfl, ?_⟩
  intro p _ hc heq
  apply hc
  have hlen := congrArg (fun q : Page => q.content.length) heq
  simp only [mergePage, List.length_append] at hlen
  have : p.content.length = 0 := by omega
  exact List.length_eq_zero.mp this

/-- C9 witness: on a one-page PDF with non-empty content the output page is
the self-merge of the source page, and differs from it. -/
theorem claim_C9_witness :
    (process_pdf { pages := [{ content := [1] }] } create_config).pages
        = ({ pages := [{ content := [1] }] } : Pdf).pages.map
            (fun p => mergePage p p) ∧
      mergePage { content := [1] } { content := [1] } ≠ { content := [1] } :=
  ⟨(claim_C9 { pages := [{ content := [1] }] } create_config).1,
   (claim_C9 { pages := [{ content := [1] }] } create_config).2
      { content := [1] } (by decide) (by decide)⟩

end PDFMeta
